import Mathlib

/-!
Verification of the fitness-tracker module `homework.py`.

The program is a pure calculator over rational inputs: a base class
`Training` with three variants (`Running`, `SportsWalking`, `Swimming`),
an `InfoMessage` record with a fixed message template, and a dispatcher
`read_package` mapping a workout-type code and a positional argument list
to a constructed variant.

Python floats are modelled as rationals (ℚ), so every formula is exact;
Python integers as ℤ.  Raised exceptions are modelled with `Except`:
`Training.get_spent_calories` on the base class raises
`NotImplementedError`, and positional unpacking with the wrong number of
arguments raises `TypeError` (the `except ValueError` clause in
`read_package` never matches a `TypeError`, so the exception propagates).
Division by a zero denominator (duration = 0, height = 0) is a Python
`ZeroDivisionError`; all claims hypothesise nonzero denominators, and on
that domain the total ℚ division used here agrees with the source.
-/

/-- Errors the Python source can raise on the modelled paths. -/
inductive PyError where
  | notImplementedError
  | typeError (expected given : Nat)
deriving DecidableEq, Repr

/-- The three fields set by `Training.__init__`: `action` (int),
`duration` (hours), `weight` (kg). -/
structure TrainingBase where
  action : ℤ
  duration : ℚ
  weight : ℚ
deriving DecidableEq, Repr

/-- The class hierarchy rooted at `Training`.  `base` is a direct
instance of the base class; the other constructors carry the extra
fields set by each subclass `__init__`. -/
inductive Training where
  | base (b : TrainingBase)
  | running (b : TrainingBase)
  | sportsWalking (b : TrainingBase) (height : ℚ)
  | swimming (b : TrainingBase) (length_pool : ℤ) (count_pool : ℤ)
deriving DecidableEq, Repr

def Training.toBase : Training → TrainingBase
  | .base b | .running b | .sportsWalking b _ | .swimming b _ _ => b

def Training.action (t : Training) : ℤ := t.toBase.action

def Training.duration (t : Training) : ℚ := t.toBase.duration

def Training.weight (t : Training) : ℚ := t.toBase.weight

/-- `Training.M_IN_KM = 1000`. -/
def M_IN_KM : ℚ := 1000

/-- `Training.MINUTES_IN_HOUR = 60`. -/
def MINUTES_IN_HOUR : ℚ := 60

/-- `LEN_STEP`: `0.65` on the base class, overridden to `1.38` by
`Swimming` only. -/
def Training.LEN_STEP : Training → ℚ
  | .swimming _ _ _ => 1.38
  | _ => 0.65

/-- `Training.get_distance`: `self.action * self.LEN_STEP / self.M_IN_KM`.
No subclass overrides it. -/
def Training.get_distance (t : Training) : ℚ :=
  t.action * t.LEN_STEP / M_IN_KM

/-- `get_mean_speed`: the base implementation is
`self.action * self.LEN_STEP / self.M_IN_KM / self.duration`;
`Swimming` overrides it with
`self.length_pool * self.count_pool / self.M_IN_KM / self.duration`. -/
def Training.get_mean_speed : Training → ℚ
  | .swimming b lp cp => lp * cp / M_IN_KM / b.duration
  | t => t.action * t.LEN_STEP / M_IN_KM / t.duration

/-- `Running.COEFF_CALORIE_FOR_RUN_1 = 18`. -/
def COEFF_CALORIE_FOR_RUN_1 : ℚ := 18

/-- `Running.COEFF_CALORIE_FOR_RUN_2 = 20`. -/
def COEFF_CALORIE_FOR_RUN_2 : ℚ := 20

/-- `SportsWalking.COEFF_CALORIE_FOR_WALK_1 = 0.035`. -/
def COEFF_CALORIE_FOR_WALK_1 : ℚ := 0.035

/-- `SportsWalking.COEFF_CALORIE_FOR_WALK_2 = 0.029`. -/
def COEFF_CALORIE_FOR_WALK_2 : ℚ := 0.029

/-- `Swimming.COEFF_CALORIE_FOR_SWIM_1 = 1.1`. -/
def COEFF_CALORIE_FOR_SWIM_1 : ℚ := 1.1

/-- `Swimming.COEFF_CALORIE_FOR_SWIM_2 = 2`. -/
def COEFF_CALORIE_FOR_SWIM_2 : ℚ := 2

/-- `get_spent_calories`: the base class raises `NotImplementedError`;
each subclass overrides with its own formula.  Python float
floor-division `x // y` is `⌊x / y⌋` cast back to a float. -/
def Training.get_spent_calories : Training → Except PyError ℚ
  | .base _ => .error .notImplementedError
  | t@(.running b) =>
      .ok ((COEFF_CALORIE_FOR_RUN_1 * t.get_mean_speed
        - COEFF_CALORIE_FOR_RUN_2) * b.weight
        / M_IN_KM * (b.duration * MINUTES_IN_HOUR))
  | t@(.sportsWalking b height) =>
      .ok ((COEFF_CALORIE_FOR_WALK_1 * b.weight
        + (⌊t.get_mean_speed ^ 2 / height⌋ : ℚ)
          * COEFF_CALORIE_FOR_WALK_2 * b.weight)
        * (b.duration * MINUTES_IN_HOUR))
  | t@(.swimming b _ _) =>
      .ok ((t.get_mean_speed + COEFF_CALORIE_FOR_SWIM_1)
        * COEFF_CALORIE_FOR_SWIM_2 * b.weight)

/-- The Python class name, as used for `self.__class__.__name__` in
`show_training_info`. -/
def Training.className : Training → String
  | .base _ => "Training"
  | .running _ => "Running"
  | .sportsWalking _ _ => "SportsWalking"
  | .swimming _ _ _ => "Swimming"

/-- The `InfoMessage` dataclass fields (the class-level `MESSAGE`
template is a constant; nothing in the program overrides it). -/
structure InfoMessage where
  training_type : String
  duration : ℚ
  distance : ℚ
  speed : ℚ
  calories : ℚ
deriving DecidableEq, Repr

/-- Rounding to the nearest integer with ties to even, the rounding used
by Python `format(x, ".3f")`. -/
def roundHalfEven (q : ℚ) : ℤ :=
  if q - ⌊q⌋ < 1/2 then ⌊q⌋
  else if 1/2 < q - ⌊q⌋ then ⌊q⌋ + 1
  else if ⌊q⌋ % 2 = 0 then ⌊q⌋ else ⌊q⌋ + 1

/-- Rendering of a number under the `:.3f` format spec: three digits
after the decimal point, rounding to the nearest thousandth. -/
def format3f (q : ℚ) : String :=
  let n := roundHalfEven (q * 1000)
  let sign := if n < 0 then "-" else ""
  let m := n.natAbs
  let frac := toString (m % 1000)
  let pad := String.mk (List.replicate (3 - frac.length) '0')
  sign ++ toString (m / 1000) ++ "." ++ pad ++ frac

/-- A parsed segment of the `MESSAGE` template: a literal piece of text
or a replacement field naming one of the dataclass fields. -/
inductive Seg where
  | lit (s : String)
  | training_type
  | duration
  | distance
  | speed
  | calories
deriving DecidableEq, Repr

/-- `InfoMessage.MESSAGE`, parsed into literal text and replacement
fields; the four numeric fields carry the `:.3f` format spec. -/
def MESSAGE : List Seg :=
  [.lit "Тип тренировки: ", .training_type,
   .lit "; Длительность: ", .duration,
   .lit " ч.; Дистанция: ", .distance,
   .lit " км; Ср. скорость: ", .speed,
   .lit " км/ч; Потрачено ккал: ", .calories,
   .lit "."]

/-- Substitution of one template segment, as `str.format(**asdict(self))`
does: literals are copied, replacement fields take the instance field,
formatted with `:.3f` for the numeric ones. -/
def substSeg (m : InfoMessage) : Seg → String
  | .lit s => s
  | .training_type => m.training_type
  | .duration => format3f m.duration
  | .distance => format3f m.distance
  | .speed => format3f m.speed
  | .calories => format3f m.calories

/-- `InfoMessage.get_message`: `self.MESSAGE.format(**asdict(self))`. -/
def InfoMessage.get_message (m : InfoMessage) : String :=
  String.join (MESSAGE.map (substSeg m))

/-- `Training.show_training_info`: builds an `InfoMessage` from the class
name, the duration, and the three computed quantities.  It calls
`get_spent_calories`, so it propagates that call's exception. -/
def Training.show_training_info (t : Training) : Except PyError InfoMessage :=
  t.get_spent_calories.map fun cal =>
    ⟨t.className, t.duration, t.get_distance, t.get_mean_speed, cal⟩

/-- `read_package`: looks the type code up in the
`{SWM, RUN, WLK}` dictionary; a hit unpacks `data` positionally into the
matching constructor (the wrong argument count raises `TypeError`, which
the `except ValueError` clause does not catch); a miss falls through and
returns `None`. -/
def read_package (workout_type : String) (data : List ℤ) :
    Except PyError (Option Training) :=
  if workout_type = "SWM" then
    match data with
    | [a, d, w, lp, cp] => .ok (some (.swimming ⟨a, (d : ℚ), (w : ℚ)⟩ lp cp))
    | _ => .error (.typeError 5 data.length)
  else if workout_type = "RUN" then
    match data with
    | [a, d, w] => .ok (some (.running ⟨a, (d : ℚ), (w : ℚ)⟩))
    | _ => .error (.typeError 3 data.length)
  else if workout_type = "WLK" then
    match data with
    | [a, d, w, h] => .ok (some (.sportsWalking ⟨a, (d : ℚ), (w : ℚ)⟩ (h : ℚ)))
    | _ => .error (.typeError 4 data.length)
  else
    .ok none

/-- The output line as the specification describes it, with the labels as
they stand in the source: one fixed template, fields in the order
training type, duration, distance, mean speed, calories, each numeric
field rendered with three decimal places. -/
def specInfoLine (m : InfoMessage) : String :=
  "Тип тренировки: " ++ m.training_type ++ "; Длительность: " ++
    format3f m.duration ++ " ч.; Дистанция: " ++ format3f m.distance ++
    " км; Ср. скорость: " ++ format3f m.speed ++ " км/ч; Потрачено ккал: " ++
    format3f m.calories ++ "."

/-- State-passing form of `get_distance`: the value returned together
with the post-call instance.  The source body only reads fields, so the
post-call instance is the receiver itself. -/
def Training.get_distanceCall (t : Training) : ℚ × Training :=
  (t.get_distance, t)

/-- State-passing form of `get_mean_speed`; the body only reads fields. -/
def Training.get_mean_speedCall (t : Training) : ℚ × Training :=
  (t.get_mean_speed, t)

/-- State-passing form of `get_spent_calories`; every override only reads
fields. -/
def Training.get_spent_caloriesCall (t : Training) : Except PyError ℚ × Training :=
  (t.get_spent_calories, t)

/-- State-passing form of `show_training_info`; the body only reads
fields and calls the three query methods. -/
def Training.show_training_infoCall (t : Training) :
    Except PyError InfoMessage × Training :=
  (t.show_training_info, t)

/-- Claim C1: for every constructed workout variant, `get_distance`
returns `action * step_length / 1000` kilometres, where the step length
is `0.65` for `Running` and `SportsWalking` (inherited from the base)
and `1.38` for `Swimming`. -/
theorem get_distance_formula (b : TrainingBase) (height : ℚ) (lp cp : ℤ) :
    (Training.running b).get_distance = b.action * 0.65 / 1000 ∧
    (Training.sportsWalking b height).get_distance = b.action * 0.65 / 1000 ∧
    (Training.swimming b lp cp).get_distance = b.action * 1.38 / 1000 := by
  refine ⟨?_, ?_, ?_⟩ <;>
    simp [Training.get_distance, Training.LEN_STEP, M_IN_KM, Training.action,
      Training.toBase]

/-- Claim C2: for every `Swimming` instance with positive duration,
`get_mean_speed` returns `length_pool * count_pool / 1000 / duration`,
and the result does not depend on the `action` field: two instances
differing only in `action` have the same mean speed. -/
theorem swimming_mean_speed_formula (b : TrainingBase) (lp cp a1 a2 : ℤ)
    (hd : 0 < b.duration) :
    (Training.swimming b lp cp).get_mean_speed =
      lp * cp / 1000 / b.duration ∧
    (Training.swimming ⟨a1, b.duration, b.weight⟩ lp cp).get_mean_speed =
      (Training.swimming ⟨a2, b.duration, b.weight⟩ lp cp).get_mean_speed := by
  constructor <;> simp [Training.get_mean_speed, M_IN_KM]

/-- Witness for C2 at the swimming scenario `SWM, [720, 1, 80, 25, 40]`
(mean speed `25 * 40 / 1000 / 1 = 1`), with a second instance whose
action is halved. -/
theorem swimming_mean_speed_formula_witness :
    (0 : ℚ) < 1 ∧
    ((Training.swimming ⟨720, 1, 80⟩ 25 40).get_mean_speed =
        25 * 40 / 1000 / 1 ∧
      (Training.swimming ⟨720, 1, 80⟩ 25 40).get_mean_speed =
        (Training.swimming ⟨360, 1, 80⟩ 25 40).get_mean_speed) :=
  ⟨by norm_num,
   swimming_mean_speed_formula ⟨720, 1, 80⟩ 25 40 720 360 (by norm_num)⟩

/-- Claim C3: for every `SportsWalking` instance with positive duration
and nonzero height, `get_spent_calories` returns
`(0.035 * weight + (speed^2 // height) * 0.029 * weight) * (duration * 60)`
where `//` is floor division. -/
theorem walking_calories_formula (b : TrainingBase) (height : ℚ)
    (hd : 0 < b.duration) (hh : height ≠ 0) :
    (Training.sportsWalking b height).get_spent_calories =
      .ok ((0.035 * b.weight
        + (⌊(Training.sportsWalking b height).get_mean_speed ^ 2 / height⌋ : ℚ)
          * 0.029 * b.weight) * (b.duration * 60)) := by
  simp [Training.get_spent_calories, COEFF_CALORIE_FOR_WALK_1,
    COEFF_CALORIE_FOR_WALK_2, MINUTES_IN_HOUR]

/-- Witness for C3 at the walking scenario `WLK, [9000, 1, 75, 180]`. -/
theorem walking_calories_formula_witness :
    (0 : ℚ) < 1 ∧ (180 : ℚ) ≠ 0 ∧
    (Training.sportsWalking ⟨9000, 1, 75⟩ 180).get_spent_calories =
      .ok ((0.035 * 75
        + (⌊(Training.sportsWalking ⟨9000, 1, 75⟩ 180).get_mean_speed ^ 2
              / 180⌋ : ℚ) * 0.029 * 75) * (1 * 60)) :=
  ⟨by norm_num, by norm_num,
   walking_calories_formula ⟨9000, 1, 75⟩ 180 (by norm_num) (by norm_num)⟩

/-- Claim C4, counterexample: for `RUN, [15000, 1, 75]` the code's own
formula `(18 * 9.75 - 20) * 75 / 1000 * 60` yields `699.75`, which is
not approximately `730.125`: it misses it by exactly `30.375`, far
outside the stated `1e-9` tolerance. -/
theorem run_scenario_calories_not_730 :
    read_package "RUN" [15000, 1, 75] =
      .ok (some (.running ⟨15000, 1, 75⟩)) ∧
    (Training.running ⟨15000, 1, 75⟩).get_spent_calories = .ok 699.75 ∧
    (699.75 : ℚ) ≠ 730.125 ∧ (730.125 : ℚ) - 699.75 = 30.375 := by
  refine ⟨rfl, ?_, by norm_num, by norm_num⟩
  norm_num [Training.get_spent_calories, Training.get_mean_speed,
    Training.LEN_STEP, Training.action, Training.duration, Training.toBase,
    M_IN_KM, MINUTES_IN_HOUR, COEFF_CALORIE_FOR_RUN_1, COEFF_CALORIE_FOR_RUN_2]

/-- Claim C4 as amended: for `RUN, [15000, 1, 75]` the constructed
workout has distance `9.75` km, mean speed `9.75` km/h, and spent
calories `(18 * 9.75 - 20) * 75 / 1000 * (1 * 60) = 699.75`. -/
theorem run_scenario_values :
    read_package "RUN" [15000, 1, 75] =
      .ok (some (.running ⟨15000, 1, 75⟩)) ∧
    (Training.running ⟨15000, 1, 75⟩).get_distance = 9.75 ∧
    (Training.running ⟨15000, 1, 75⟩).get_mean_speed = 9.75 ∧
    (Training.running ⟨15000, 1, 75⟩).get_spent_calories = .ok 699.75 := by
  refine ⟨rfl, ?_, ?_, ?_⟩ <;>
    norm_num [Training.get_spent_calories, Training.get_distance,
      Training.get_mean_speed, Training.LEN_STEP, Training.action,
      Training.duration, Training.toBase, M_IN_KM, MINUTES_IN_HOUR,
      COEFF_CALORIE_FOR_RUN_1, COEFF_CALORIE_FOR_RUN_2]

/-- Claim C5: for each known type code, an argument list whose length
differs from the variant's arity (5 for `SWM`, 3 for `RUN`, 4 for `WLK`)
makes `read_package` fail with an arity error naming the expected count;
the arguments are never truncated or padded. -/
theorem read_package_arity_mismatch (data : List ℤ) :
    (data.length ≠ 5 →
      read_package "SWM" data = .error (.typeError 5 data.length)) ∧
    (data.length ≠ 3 →
      read_package "RUN" data = .error (.typeError 3 data.length)) ∧
    (data.length ≠ 4 →
      read_package "WLK" data = .error (.typeError 4 data.length)) := by
  rcases data with _ | ⟨a, _ | ⟨b, _ | ⟨c, _ | ⟨d, _ | ⟨e, _ | ⟨f, rest⟩⟩⟩⟩⟩⟩ <;>
    refine ⟨fun h1 => ?_, fun h2 => ?_, fun h3 => ?_⟩ <;>
    simp_all [read_package]

/-- Witness for C5: the list `[1, 2]` has the wrong arity for all three
codes. -/
theorem read_package_arity_mismatch_witness :
    (([1, 2] : List ℤ).length ≠ 3 →
      read_package "RUN" [1, 2] = .error (.typeError 3 ([1, 2] : List ℤ).length)) ∧
    ([1, 2] : List ℤ).length ≠ 3 ∧
    read_package "RUN" [1, 2] = .error (.typeError 3 2) :=
  ⟨(read_package_arity_mismatch [1, 2]).2.1, by decide,
   (read_package_arity_mismatch [1, 2]).2.1 (by decide)⟩

/-- Claim C6: for every type code outside `{SWM, RUN, WLK}` and every
argument list, `read_package` returns no workout (`None`) and raises
nothing. -/
theorem read_package_unknown_type (wt : String) (data : List ℤ)
    (h1 : wt ≠ "SWM") (h2 : wt ≠ "RUN") (h3 : wt ≠ "WLK") :
    read_package wt data = .ok none := by
  simp [read_package, h1, h2, h3]

/-- Witness for C6 at the unknown code `XYZ`. -/
theorem read_package_unknown_type_witness :
    ("XYZ" : String) ≠ "SWM" ∧ ("XYZ" : String) ≠ "RUN" ∧
    ("XYZ" : String) ≠ "WLK" ∧
    read_package "XYZ" [1, 2, 3] = .ok none :=
  ⟨by decide, by decide, by decide,
   read_package_unknown_type "XYZ" [1, 2, 3] (by decide) (by decide) (by decide)⟩

/-- Claim C7: `get_spent_calories` on a direct instance of the base
class always raises; the base provides no default calorie
implementation. -/
theorem base_calories_not_implemented (b : TrainingBase) :
    (Training.base b).get_spent_calories =
      .error .notImplementedError := rfl

/-- Evaluation of the `:.3f` rendering at `1`. -/
theorem format3f_at_one : format3f 1 = "1.000" := by
  have h : roundHalfEven ((1 : ℚ) * 1000) = 1000 := by
    norm_num [roundHalfEven]
  simp only [format3f, h]
  decide

/-- Evaluation of the `:.3f` rendering at `9.75`. -/
theorem format3f_at_975 : format3f 9.75 = "9.750" := by
  have h : roundHalfEven ((9.75 : ℚ) * 1000) = 9750 := by
    norm_num [roundHalfEven]
  simp only [format3f, h]
  decide

/-- Evaluation of the `:.3f` rendering at `699.75`. -/
theorem format3f_at_69975 : format3f 699.75 = "699.750" := by
  have h : roundHalfEven ((699.75 : ℚ) * 1000) = 699750 := by
    norm_num [roundHalfEven]
  simp only [format3f, h]
  decide

/-- Claim C8, counterexample: at the running scenario's summary the
produced line carries the source's Russian labels, not the English
labels the claim writes out. -/
theorem get_message_not_english_line :
    (InfoMessage.mk "Running" 1 9.75 9.75 699.75).get_message ≠
      "Training type: Running; Duration: 1.000 h.; Distance: 9.750 km; Mean speed: 9.750 km/h; Calories burned: 699.750." := by
  have h : (InfoMessage.mk "Running" 1 9.75 9.75 699.75).get_message =
      "Тип тренировки: Running; Длительность: 1.000 ч.; Дистанция: 9.750 км; Ср. скорость: 9.750 км/ч; Потрачено ккал: 699.750." := by
    simp only [InfoMessage.get_message, MESSAGE, substSeg, List.map,
      format3f_at_one, format3f_at_975, format3f_at_69975]
    decide
  rw [h]
  decide

/-- Claim C8 as amended: for every `InfoMessage`, `get_message` produces
exactly the fixed-template line with the source's labels, the fields in
the order training type, duration, distance, mean speed, calories, and
each numeric field rendered with three decimal places. -/
theorem get_message_is_template (m : InfoMessage) :
    m.get_message = specInfoLine m := by
  apply String.ext
  simp [InfoMessage.get_message, MESSAGE, substSeg, specInfoLine,
    String.data_append]

/-- Claim C9: every query operation is pure with respect to the
instance: in state-passing form each call returns the receiver
unchanged, and a repeated call on the resulting instance returns the
same value. -/
theorem queries_pure (t : Training) :
    (t.get_distanceCall.2 = t ∧ t.get_mean_speedCall.2 = t ∧
      t.get_spent_caloriesCall.2 = t ∧ t.show_training_infoCall.2 = t) ∧
    (t.get_distanceCall.2.get_distanceCall.1 = t.get_distanceCall.1 ∧
      t.get_mean_speedCall.2.get_mean_speedCall.1 = t.get_mean_speedCall.1 ∧
      t.get_spent_caloriesCall.2.get_spent_caloriesCall.1 =
        t.get_spent_caloriesCall.1 ∧
      t.show_training_infoCall.2.show_training_infoCall.1 =
        t.show_training_infoCall.1) :=
  ⟨⟨rfl, rfl, rfl, rfl⟩, ⟨rfl, rfl, rfl, rfl⟩⟩

/-- Claim C10: a `Running` workout with positive duration and weight
whose mean speed is below `20/18` km/h gets a strictly negative calorie
value; the code places no lower bound of zero on the result. -/
theorem running_calories_negative (b : TrainingBase)
    (hd : 0 < b.duration) (hw : 0 < b.weight)
    (hs : (Training.running b).get_mean_speed < 20 / 18) :
    ∃ c, (Training.running b).get_spent_calories = .ok c ∧ c < 0 := by
  refine ⟨_, rfl, ?_⟩
  have h1 : COEFF_CALORIE_FOR_RUN_1 * (Training.running b).get_mean_speed
      - COEFF_CALORIE_FOR_RUN_2 < 0 := by
    simp only [COEFF_CALORIE_FOR_RUN_1, COEFF_CALORIE_FOR_RUN_2]
    nlinarith [hs]
  have h2 : (COEFF_CALORIE_FOR_RUN_1 * (Training.running b).get_mean_speed
      - COEFF_CALORIE_FOR_RUN_2) * b.weight < 0 :=
    mul_neg_of_neg_of_pos h1 hw
  have h3 : (COEFF_CALORIE_FOR_RUN_1 * (Training.running b).get_mean_speed
      - COEFF_CALORIE_FOR_RUN_2) * b.weight / M_IN_KM < 0 :=
    div_neg_of_neg_of_pos h2 (by norm_num [M_IN_KM])
  exact mul_neg_of_neg_of_pos h3
    (mul_pos hd (by norm_num [MINUTES_IN_HOUR]))

/-- Witness for C10 at `action = 1000, duration = 1, weight = 75`, whose
mean speed `0.65` is below `20/18`. -/
theorem running_calories_negative_witness :
    (0 : ℚ) < 1 ∧ (0 : ℚ) < 75 ∧
    (Training.running ⟨1000, 1, 75⟩).get_mean_speed < 20 / 18 ∧
    ∃ c, (Training.running ⟨1000, 1, 75⟩).get_spent_calories =
      .ok c ∧ c < 0 :=
  ⟨by norm_num, by norm_num,
   by norm_num [Training.get_mean_speed, Training.LEN_STEP, Training.action,
     Training.duration, Training.toBase, M_IN_KM],
   running_calories_negative ⟨1000, 1, 75⟩ (by norm_num) (by norm_num)
     (by norm_num [Training.get_mean_speed, Training.LEN_STEP, Training.action,
       Training.duration, Training.toBase, M_IN_KM])⟩
